import Mathlib

/-!
# Verification of the Disaster-Response-Platform enrichment and distribution core

A shallow embedding, in Lean 4, of the JavaScript source of the
Disaster-Response-Platform repository, together with theorems about the
embedded definitions.

Conventions of the embedding:
* JavaScript strings are modelled by `String` (and raw byte buffers, as
  produced by `Buffer.from(text)`, by `List Nat`, one `Nat` per byte).
* Timestamps are absolute epoch milliseconds, modelled by `Int`
  (`Date.now()`, `new Date(...)` comparisons compare these numbers).
* The Supabase `cache` table is modelled by an association list from keys
  to entries; `upsert` on the primary key replaces the row with the same
  key; `.single()` returns the (unique) matching row or a `PGRST116`
  "no data" error.
* A store-access failure (the `{ error }` branch of a Supabase call /
  a thrown exception) is modelled by an explicit `dbErr : Option String`
  parameter: `none` means the store is healthy, `some msg` means every
  store operation fails with `msg`.  Functions that the source wraps in
  `try { ... } catch { ... }` are embedded twice: a `...Attempt` version
  returning `Except` (the body of the `try`), and the exported version
  applying the `catch` handler.
-/

namespace DisasterPlatform

/-! ## TTL cache store — `src/server/utils/cache.js`

One row of the Supabase `cache` table, as read by `getCachedData`
(`select('value, expires_at')`). -/

structure CacheEntry (V : Type) where
  value : V
  expires_at : Int
  deriving Repr, DecidableEq

/-- The `cache` table: an association list from keys to entries. -/
abbrev Store (V : Type) : Type := List (String × CacheEntry V)

/-- `.from('cache').select(...).eq('key', key).single()`:
the row whose `key` column matches, if any. -/
def storeFind {V : Type} : Store V → String → Option (CacheEntry V)
  | [], _ => none
  | (k, e) :: rest, key => if k = key then some e else storeFind rest key

/-- `.from('cache').delete().eq('key', key)`: remove every row with this key. -/
def storeDelete {V : Type} : Store V → String → Store V
  | [], _ => []
  | (k, e) :: rest, key =>
      if k = key then storeDelete rest key else (k, e) :: storeDelete rest key

/-- `.from('cache').upsert({key, value, expires_at})`: replace the row with
this primary key (or insert it). -/
def storeUpsert {V : Type} (store : Store V) (key : String) (e : CacheEntry V) : Store V :=
  (key, e) :: storeDelete store key

/-- Number of rows of the table holding the given key. -/
def countKey {V : Type} : Store V → String → Nat
  | [], _ => 0
  | (k, _) :: rest, key =>
      (if k = key then 1 else 0) + countKey rest key

/-- The body of the `try` block of `getCachedData(key)` in
`src/server/utils/cache.js` (lines 4–31): select the row; a `PGRST116`
error means no row and yields `null`; any other store error is thrown;
a row whose `expires_at` is in the past is deleted and yields `null`;
otherwise the stored value is returned.  The pair carries the resulting
table state. -/
def getCachedDataAttempt {V : Type} (dbErr : Option String) (now : Int)
    (store : Store V) (key : String) : Except String (Option V × Store V) :=
  match dbErr with
  | some msg => .error msg
  | none =>
      match storeFind store key with
      | none => .ok (none, store)
      | some e =>
          if e.expires_at < now then .ok (none, storeDelete store key)
          else .ok (some e.value, store)

/-- `getCachedData(key)`: the `try` body above with its `catch` handler,
which logs the error and returns `null` (a miss), leaving the table as it
was. -/
def getCachedData {V : Type} (dbErr : Option String) (now : Int)
    (store : Store V) (key : String) : Option V × Store V :=
  match getCachedDataAttempt dbErr now store key with
  | .ok r => r
  | .error _ => (none, store)

/-- The body of the `try` block of `setCachedData(key, value, ttlSeconds)`
(lines 38–52): compute `expiresAt = now + ttlSeconds * 1000` and upsert
the row; a store error is thrown. -/
def setCachedDataAttempt {V : Type} (dbErr : Option String) (now : Int)
    (store : Store V) (key : String) (value : V) (ttlSeconds : Int) :
    Except String (Store V) :=
  match dbErr with
  | some msg => .error msg
  | none => .ok (storeUpsert store key ⟨value, now + ttlSeconds * 1000⟩)

/-- `setCachedData(key, value, ttlSeconds)`: the `try` body with its
`catch` handler, which logs the error and returns normally, leaving the
table as it was. -/
def setCachedData {V : Type} (dbErr : Option String) (now : Int)
    (store : Store V) (key : String) (value : V) (ttlSeconds : Int) : Store V :=
  match setCachedDataAttempt dbErr now store key value ttlSeconds with
  | .ok store' => store'
  | .error _ => store

/-- `clearExpiredCache()` (lines 58–71): delete all rows with
`expires_at < now`. -/
def clearExpiredCache {V : Type} (now : Int) (store : Store V) : Store V :=
  store.filter (fun p => !(p.2.expires_at < now))

/-! ### Basic store lemmas -/

theorem storeFind_storeDelete_self {V : Type} (store : Store V) (key : String) :
    storeFind (storeDelete store key) key = none := by
  induction store with
  | nil => rfl
  | cons p rest ih =>
      obtain ⟨k, e⟩ := p
      by_cases h : k = key <;> simp [storeDelete, storeFind, h, ih]

theorem countKey_storeDelete_self {V : Type} (store : Store V) (key : String) :
    countKey (storeDelete store key) key = 0 := by
  induction store with
  | nil => rfl
  | cons p rest ih =>
      obtain ⟨k, e⟩ := p
      by_cases h : k = key <;> simp [storeDelete, countKey, h, ih]

theorem storeFind_storeUpsert_self {V : Type} (store : Store V) (key : String)
    (e : CacheEntry V) : storeFind (storeUpsert store key e) key = some e := by
  simp [storeUpsert, storeFind]

theorem countKey_storeUpsert_self {V : Type} (store : Store V) (key : String)
    (e : CacheEntry V) : countKey (storeUpsert store key e) key = 1 := by
  simp [storeUpsert, countKey, countKey_storeDelete_self]

/-! ### Claims C7, C8, C9 — TTL cache semantics -/

/-- C7 (counterexample): the claim says the stored value is returned exactly
when the current time is *strictly before* `expiresAt`.  The source tests
`new Date(data.expires_at) < new Date()`, so at `now = expires_at` the entry
is *not* treated as expired and the value is still returned, contradicting
the strict-inequality reading: here `now = expires_at = 1000`, `now` is not
strictly before `expires_at`, yet `getCachedData` returns `some 42`. -/
theorem cache_get_boundary_counterexample :
    getCachedData (V := Nat) none 1000 [("k", ⟨42, 1000⟩)] "k" =
      (some 42, [("k", ⟨42, 1000⟩)]) ∧ ¬ ((1000 : Int) < 1000) := by
  refine ⟨by decide, by omega⟩

/-- C7 (amended): `getCachedData` returns the stored value exactly when an
entry for the key is present and `now ≤ expires_at` (at-or-before the
deadline, the source's non-strict reading); when the entry is stale
(`expires_at < now`) it returns a miss and deletes the entry, so no row for
the key survives; when no entry is present it returns a miss and leaves the
table unchanged.  In particular an entry with `expires_at < now` is never
returned. -/
theorem cache_get_ttl_semantics {V : Type} (now : Int) (store : Store V)
    (key : String) :
    (∀ e, storeFind store key = some e → now ≤ e.expires_at →
        getCachedData none now store key = (some e.value, store)) ∧
    (∀ e, storeFind store key = some e → e.expires_at < now →
        getCachedData none now store key = (none, storeDelete store key) ∧
          storeFind (storeDelete store key) key = none) ∧
    (storeFind store key = none →
        getCachedData none now store key = (none, store)) := by
  refine ⟨?_, ?_, ?_⟩
  · intro e he hle
    simp [getCachedData, getCachedDataAttempt, he, not_lt.mpr hle]
  · intro e he hlt
    exact ⟨by simp [getCachedData, getCachedDataAttempt, he, hlt],
      storeFind_storeDelete_self store key⟩
  · intro he
    simp [getCachedData, getCachedDataAttempt, he]

/-- Witness for `cache_get_ttl_semantics` at a concrete store. -/
theorem cache_get_ttl_semantics_witness :
    getCachedData (V := Nat) none 5 [("k", ⟨7, 10⟩)] "k" =
      (some 7, [("k", ⟨7, 10⟩)]) :=
  (cache_get_ttl_semantics 5 [("k", ⟨7, 10⟩)] "k").1 ⟨7, 10⟩ (by decide) (by decide)

/-- C8 (confirmed): on a store-access failure the `try` bodies of both cache
operations raise the store's error, and the exported functions swallow it:
`getCachedData` returns a miss (`null`) with the table unchanged, and
`setCachedData` returns normally with the table unchanged — the failure
never propagates to the caller. -/
theorem cache_store_failure_is_miss {V : Type} (err : String) (now ttl : Int)
    (store : Store V) (key : String) (v : V) :
    getCachedDataAttempt (some err) now store key = .error err ∧
    getCachedData (some err) now store key = (none, store) ∧
    setCachedDataAttempt (some err) now store key v ttl = .error err ∧
    setCachedData (some err) now store key v ttl = store :=
  ⟨rfl, rfl, rfl, rfl⟩

/-- C9 (confirmed): with a healthy store, `set` then immediate `get` on the
same key returns the value just written; and two sequential `set`s on the
same key leave exactly one row for that key, holding the second value. -/
theorem cache_roundTrip_and_overwrite {V : Type} (now ttl : Int)
    (store : Store V) (key : String) (v v1 v2 : V) (h : 0 < ttl) :
    getCachedData none now (setCachedData none now store key v ttl) key =
      (some v, setCachedData none now store key v ttl) ∧
    countKey (setCachedData none now
        (setCachedData none now store key v1 ttl) key v2 ttl) key = 1 ∧
    storeFind (setCachedData none now
        (setCachedData none now store key v1 ttl) key v2 ttl) key =
      some ⟨v2, now + ttl * 1000⟩ := by
  have hexp : ¬ (now + ttl * 1000 < now) := by omega
  refine ⟨?_, ?_, ?_⟩
  · simp [getCachedData, getCachedDataAttempt, setCachedData, setCachedDataAttempt,
      storeFind_storeUpsert_self, hexp]
  · simp [setCachedData, setCachedDataAttempt, countKey_storeUpsert_self]
  · simp [setCachedData, setCachedDataAttempt, storeFind_storeUpsert_self]

/-- Witness for `cache_roundTrip_and_overwrite` at a concrete store. -/
theorem cache_roundTrip_and_overwrite_witness :
    getCachedData (V := Nat) none 0 (setCachedData none 0 [] "k" 5 1) "k" =
      (some 5, setCachedData none 0 [] "k" 5 1) ∧
    countKey (setCachedData (V := Nat) none 0
        (setCachedData none 0 [] "k" 5 1) "k" 6 1) "k" = 1 ∧
    storeFind (setCachedData (V := Nat) none 0
        (setCachedData none 0 [] "k" 5 1) "k" 6 1) "k" =
      some ⟨6, 0 + 1 * 1000⟩ :=
  cache_roundTrip_and_overwrite 0 1 [] "k" 5 5 6 (by decide)

/-! ## Provider fallback resolver — `src/server/services/geocoding.js`

Each geocoder in the source (`geocodeWithGoogleMaps`, `geocodeWithMapbox`,
`geocodeWithOpenStreetMap`) either throws (missing credential, transport
error, empty result set) or returns a result object — every non-throwing
return path of the three providers yields an object literal, which is
truthy, so the loop's `if (result)` test passes exactly on a non-throwing
call.  A provider invocation is therefore modelled by its outcome: -/

inductive ProviderOutcome (V : Type) where
  | success (v : V)
  | failure (reason : String)
  deriving Repr, DecidableEq

/-- `o` is a throwing (failed) provider invocation. -/
def ProviderOutcome.isFailure {V : Type} : ProviderOutcome V → Bool
  | .failure _ => true
  | .success _ => false

/-- `geocodeLocation(locationName)` (lines 7–28): walk the `geocoders` list
in declared order; a throwing provider is caught, logged and skipped
(`continue`); the first provider that returns a (truthy) result
short-circuits the loop; if the loop finishes with no result, throw
`new Error('All geocoding services failed')`.  The second component counts
how many providers were invoked, so `(r, n)` means exactly the first `n`
providers of the list were called, in order. -/
def geocodeLocationRun {V : Type} : List (ProviderOutcome V) → Except String V × Nat
  | [] => (.error "All geocoding services failed", 0)
  | .success v :: _ => (.ok v, 1)
  | .failure _ :: rest =>
      let r := geocodeLocationRun rest
      (r.1, r.2 + 1)

/-- The value/error actually produced by `geocodeLocation`. -/
def geocodeLocation {V : Type} (providers : List (ProviderOutcome V)) : Except String V :=
  (geocodeLocationRun providers).1

/-! ### Claims C5, C3 — fallback order and aggregate failure -/

/-- C5 (confirmed): with any list of providers that starts with `pre`
(all failing), followed by a succeeding provider and then arbitrary further
providers `post`, `geocodeLocation` returns the first success's result and
invokes exactly `pre.length + 1` providers — the failing prefix in order,
then the first success — so no provider after the first success is ever
invoked. -/
theorem geocodeLocation_fallback_order {V : Type} (pre post : List (ProviderOutcome V))
    (v : V) (hpre : ∀ o ∈ pre, o.isFailure = true) :
    geocodeLocationRun (pre ++ .success v :: post) = (.ok v, pre.length + 1) := by
  induction pre with
  | nil => simp [geocodeLocationRun]
  | cons o pre ih =>
      have ho := hpre o (List.mem_cons_self o pre)
      cases o with
      | success w => simp [ProviderOutcome.isFailure] at ho
      | failure r =>
          have ih' := ih (fun o' h' => hpre o' (List.mem_cons_of_mem _ h'))
          simp [geocodeLocationRun, ih']

/-- Witness for `geocodeLocation_fallback_order`: providers
`[A (fails), B (succeeds with "X"), C (succeeds with "Y")]` yield `"X"`
with only 2 providers invoked, so `C` is never called. -/
theorem geocodeLocation_fallback_order_witness :
    geocodeLocationRun [ProviderOutcome.failure (V := String) "A down",
      .success "X", .success "Y"] = (.ok "X", 2) :=
  geocodeLocation_fallback_order [.failure "A down"] [.success "Y"] "X" (by decide)

/-- C3 (counterexample): the claim says the aggregate failure carries the
set of per-provider reasons.  But the source throws the fixed
`new Error('All geocoding services failed')`: two all-failing provider
lists with *different* reason sets produce identical outcomes, so the
aggregate failure cannot carry the per-provider reasons. -/
theorem geocode_aggregate_failure_counterexample :
    geocodeLocationRun [ProviderOutcome.failure (V := String) "google down",
        .failure "mapbox down"] =
      (.error "All geocoding services failed", 2) ∧
    geocodeLocationRun [ProviderOutcome.failure (V := String) "missing key",
        .failure "timeout"] =
      geocodeLocationRun [ProviderOutcome.failure (V := String) "google down",
        .failure "mapbox down"] :=
  ⟨rfl, rfl⟩

/-- C3 (amended): when every provider fails, `geocodeLocation` invokes all
of them in order and throws a single *fixed* aggregate failure,
`'All geocoding services failed'`; the per-provider reasons are only
logged, not carried in the thrown error. -/
theorem geocode_all_providers_fail {V : Type} (providers : List (ProviderOutcome V))
    (h : ∀ o ∈ providers, o.isFailure = true) :
    geocodeLocationRun providers =
      (.error "All geocoding services failed", providers.length) := by
  induction providers with
  | nil => rfl
  | cons o rest ih =>
      have ho := h o (List.mem_cons_self o rest)
      cases o with
      | success w => simp [ProviderOutcome.isFailure] at ho
      | failure r =>
          have ih' := ih (fun o' h' => h o' (List.mem_cons_of_mem _ h'))
          simp [geocodeLocationRun, ih']

/-- Witness for `geocode_all_providers_fail` at a concrete provider list. -/
theorem geocode_all_providers_fail_witness :
    geocodeLocationRun [ProviderOutcome.failure (V := String) "A down",
        .failure "B down"] =
      (.error "All geocoding services failed", 2) :=
  geocode_all_providers_fail [.failure "A down", .failure "B down"] (by decide)

/-! ## Cache-key derivation — `src/server/routes/geocoding.js` and the
`verify-image` route

The routes derive keys as
`` `prefix_${Buffer.from(text).toString('base64').slice(0, 32)}` ``.
A byte buffer is a `List Nat` (one `Nat` per byte); base64 encoding follows
`Buffer.toString('base64')` (standard alphabet, `=` padding). -/

/-- The standard base64 alphabet. -/
def base64Alphabet : List Char :=
  "ABCDEFGHIJKLMNOPQRSTUVWXYZabcdefghijklmnopqrstuvwxyz0123456789+/".data

/-- Character of the alphabet at a 6-bit index. -/
def base64Char (n : Nat) : Char := base64Alphabet.getD n 'A'

/-- `Buffer.from(bytes).toString('base64')` as a character list: 3-byte
groups become 4 alphabet characters; a trailing group of 1 or 2 bytes is
padded with `=`. -/
def base64Encode : List Nat → List Char
  | b1 :: b2 :: b3 :: rest =>
      base64Char (b1 / 4) ::
      base64Char (b1 % 4 * 16 + b2 / 16) ::
      base64Char (b2 % 16 * 4 + b3 / 64) ::
      base64Char (b3 % 64) ::
      base64Encode rest
  | [b1, b2] =>
      [base64Char (b1 / 4), base64Char (b1 % 4 * 16 + b2 / 16),
        base64Char (b2 % 16 * 4), '=']
  | [b1] => [base64Char (b1 / 4), base64Char (b1 % 4 * 16), '=', '=']
  | [] => []

/-- `` `geocode_${Buffer.from(inputText).toString('base64').slice(0, 32)}` ``
(`/extract-and-geocode`, `src/server/routes/geocoding.js` line 19). -/
def geocodeCacheKey (inputText : List Nat) : List Char :=
  "geocode_".data ++ (base64Encode inputText).take 32

/-- `` `direct_geocode_${...}` `` (`/coordinates`, line 96). -/
def directGeocodeCacheKey (locationName : List Nat) : List Char :=
  "direct_geocode_".data ++ (base64Encode locationName).take 32

/-- `` `image_verification_${...}` `` (`verify-image` route,
`src/server/routes/updates.js` embedded verification router, line 352). -/
def imageVerificationCacheKey (imageUrl : List Nat) : List Char :=
  "image_verification_".data ++ (base64Encode imageUrl).take 32

/-- The first `4 * k` base64 characters depend only on the first `3 * k`
input bytes. -/
theorem base64Encode_take_mul (k : Nat) :
    ∀ bs : List Nat, (base64Encode bs).take (4 * k) =
      (base64Encode (bs.take (3 * k))).take (4 * k) := by
  induction k with
  | zero => intro bs; simp
  | succ k ih =>
      intro bs
      match bs with
      | [] => simp
      | [b1] =>
          have t1 : List.take (3 * (k + 1)) [b1] = [b1] :=
            List.take_of_length_le
              (by simp only [List.length_cons, List.length_nil]; omega)
          rw [t1]
      | [b1, b2] =>
          have t2 : List.take (3 * (k + 1)) [b1, b2] = [b1, b2] :=
            List.take_of_length_le
              (by simp only [List.length_cons, List.length_nil]; omega)
          rw [t2]
      | b1 :: b2 :: b3 :: rest =>
          have h4 : 4 * (k + 1) = 4 * k + 1 + 1 + 1 + 1 := by ring
          have h3 : 3 * (k + 1) = 3 * k + 1 + 1 + 1 := by ring
          rw [h3, h4]
          simp only [base64Encode, List.take_succ_cons]
          rw [ih rest]

/-- The 32 characters kept by `.slice(0, 32)` depend only on the first 24
input bytes. -/
theorem base64Encode_take32 (bs : List Nat) :
    (base64Encode bs).take 32 = (base64Encode (bs.take 24)).take 32 := by
  have h := base64Encode_take_mul 8 bs
  norm_num at h
  exact h

/-! ### Claim C4 — cache-key determinism and collisions -/

/-- C4 (counterexample): two *distinct* texts that agree on their first 24
bytes derive the *same* geocode cache key, because the key keeps only the
first 32 base64 characters, i.e. the first 24 bytes: the claim's
"distinct inputs never derive the same key" is false. -/
theorem cacheKey_collision_counterexample :
    geocodeCacheKey (List.replicate 24 65 ++ [66]) =
      geocodeCacheKey (List.replicate 24 65 ++ [67]) ∧
    List.replicate 24 65 ++ [66] ≠ List.replicate 24 65 ++ [67] := by
  constructor
  · rfl
  · decide

/-- C4 (amended): key derivation is deterministic (a function of the
input), and the namespace prefixes keep a geocode request, a direct-geocode
request and a content-analysis (image-verification) request on identical
text from ever colliding; but within a namespace the key depends only on
the first 24 bytes of the text, so any two texts agreeing on their first 24
bytes — in particular two distinct texts with a common 24-byte prefix —
derive the same key. -/
theorem cacheKey_derivation_semantics (a b : List Nat) :
    (a = b → geocodeCacheKey a = geocodeCacheKey b) ∧
    geocodeCacheKey a ≠ imageVerificationCacheKey b ∧
    geocodeCacheKey a ≠ directGeocodeCacheKey b ∧
    directGeocodeCacheKey a ≠ imageVerificationCacheKey b ∧
    (a.take 24 = b.take 24 → geocodeCacheKey a = geocodeCacheKey b) := by
  refine ⟨fun h => by rw [h], ?_, ?_, ?_, fun h => ?_⟩
  · have ha : geocodeCacheKey a =
        'g' :: ("eocode_".data ++ (base64Encode a).take 32) := rfl
    have hb : imageVerificationCacheKey b =
        'i' :: ("mage_verification_".data ++ (base64Encode b).take 32) := rfl
    intro h
    rw [ha, hb] at h
    injection h with h1 _
    exact absurd h1 (by decide)
  · have ha : geocodeCacheKey a =
        'g' :: ("eocode_".data ++ (base64Encode a).take 32) := rfl
    have hb : directGeocodeCacheKey b =
        'd' :: ("irect_geocode_".data ++ (base64Encode b).take 32) := rfl
    intro h
    rw [ha, hb] at h
    injection h with h1 _
    exact absurd h1 (by decide)
  · have ha : directGeocodeCacheKey a =
        'd' :: ("irect_geocode_".data ++ (base64Encode a).take 32) := rfl
    have hb : imageVerificationCacheKey b =
        'i' :: ("mage_verification_".data ++ (base64Encode b).take 32) := rfl
    intro h
    rw [ha, hb] at h
    injection h with h1 _
    exact absurd h1 (by decide)
  · unfold geocodeCacheKey
    rw [base64Encode_take32 a, base64Encode_take32 b, h]

/-- Witness for `cacheKey_derivation_semantics`: two further texts agreeing
on their first 24 bytes share a key. -/
theorem cacheKey_derivation_semantics_witness :
    geocodeCacheKey (List.replicate 30 97) =
      geocodeCacheKey (List.replicate 24 97 ++ [98, 99, 100, 101, 102, 103]) :=
  (cacheKey_derivation_semantics (List.replicate 30 97)
      (List.replicate 24 97 ++ [98, 99, 100, 101, 102, 103])).2.2.2.2 (by decide)

/-! ## Real-time fan-out — `src/server/index.js` and the route emits

`index.js` wires Socket.IO: on `join_disaster` a socket joins the room
`` `disaster_${disasterId}` ``; on disconnect it leaves all rooms.  The
routes then publish mutation events in two distinct ways:
* the disasters router (`src/server/routes/updates.js`, embedded disasters
  router) emits `disaster_updated` with `io.emit(...)` on create, update
  and delete — a broadcast to *every* connected socket;
* the resources router (`src/unnamed/part_002`) and the social-media
  router (`src/server/routes/socialMedia.js`) emit with
  ``io.to(`disaster_${id}`).emit(...)`` — scoped to the room's members. -/

structure SocketState where
  /-- Ids of currently connected sockets. -/
  connected : List String
  /-- Room membership: `(socketId, roomName)` pairs. -/
  rooms : List (String × String)
  deriving Repr, DecidableEq

/-- The `join_disaster` handler (`index.js` lines 67–70):
`` socket.join(`disaster_${disasterId}`) ``.  Socket.IO's `join` is a
no-op when the socket is already in the room. -/
def joinDisaster (st : SocketState) (sid disasterId : String) : SocketState :=
  let room := "disaster_" ++ disasterId
  if (sid, room) ∈ st.rooms then st
  else { st with rooms := (sid, room) :: st.rooms }

/-- The `disconnect` handler: the socket leaves every room. -/
def disconnectSocket (st : SocketState) (sid : String) : SocketState :=
  { connected := st.connected.filter (fun s => s ≠ sid),
    rooms := st.rooms.filter (fun p => p.1 ≠ sid) }

/-- `io.emit(event, ...)`: delivered to every connected socket. -/
def ioEmitRecipients (st : SocketState) : List String := st.connected

/-- `` io.to(room).emit(event, ...) ``: delivered to the connected sockets
that are members of the room. -/
def ioToEmitRecipients (st : SocketState) (room : String) : List String :=
  st.connected.filter (fun s => (s, room) ∈ st.rooms)

/-- Which entity a published mutation event concerns. -/
inductive EntityKind where
  | disaster
  | resource
  | socialMedia
  deriving Repr, DecidableEq

/-- Mutation kinds carried in the emitted payloads (`type: 'create'` /
`'update'` / `'delete'`). -/
inductive MutationKind where
  | create
  | update
  | delete
  deriving Repr, DecidableEq

/-- Recipients of a mutation event about the disaster `disasterId`, as the
routes emit them.  Disaster mutations (`disaster_updated`: create, update
and delete alike) use `io.emit`; resource mutations (`resources_updated`)
and social-media updates (`social_media_updated`) use
`` io.to(`disaster_${disasterId}`) ``.  The routing never depends on the
mutation kind. -/
def mutationEmitRecipients (st : SocketState) (ek : EntityKind)
    (_mk : MutationKind) (disasterId : String) : List String :=
  match ek with
  | .disaster => ioEmitRecipients st
  | .resource => ioToEmitRecipients st ("disaster_" ++ disasterId)
  | .socialMedia => ioToEmitRecipients st ("disaster_" ++ disasterId)

/-! ### Claim C2 — topic scoping -/

/-- C2 (counterexample): an observer `"o"` that joined only the room of
disaster `"A"` still receives the `disaster_updated` event published for
disaster `"B"`, because the disasters router broadcasts with `io.emit`
instead of `` io.to(`disaster_${id}`) ``: the claimed topic-scoping
invariant fails for disaster mutations. -/
theorem topic_scoping_counterexample :
    "o" ∈ mutationEmitRecipients
        ⟨["o"], [("o", "disaster_A")]⟩ .disaster .update "B" ∧
    ("o", "disaster_B") ∉ (⟨["o"], [("o", "disaster_A")]⟩ : SocketState).rooms := by
  decide

/-- C2 (amended): resource and social-media events are room-scoped — a
connected observer receives them only if it is a member of the event
disaster's room, i.e. has explicitly joined that topic — while disaster
mutation events (create, update and delete alike) are broadcast to every
connected observer regardless of room membership. -/
theorem topic_scoping_semantics (st : SocketState) (mk : MutationKind)
    (disasterId o : String) :
    (o ∈ mutationEmitRecipients st .resource mk disasterId →
        (o, "disaster_" ++ disasterId) ∈ st.rooms) ∧
    (o ∈ mutationEmitRecipients st .socialMedia mk disasterId →
        (o, "disaster_" ++ disasterId) ∈ st.rooms) ∧
    (o ∈ st.connected → o ∈ mutationEmitRecipients st .disaster mk disasterId) := by
  refine ⟨?_, ?_, fun h => h⟩ <;>
    · intro h
      simp only [mutationEmitRecipients, ioToEmitRecipients,
        List.mem_filter, decide_eq_true_eq] at h
      exact h.2

/-- Witness for `topic_scoping_semantics`: a member of disaster `"B"`'s
room that receives a resource event for `"B"` is indeed recorded in that
room. -/
theorem topic_scoping_semantics_witness :
    ("o", "disaster_" ++ "B") ∈
      (⟨["o"], [("o", "disaster_B")]⟩ : SocketState).rooms :=
  (topic_scoping_semantics ⟨["o"], [("o", "disaster_B")]⟩ .create "B" "o").1
    (by decide)

/-! ## Image verification — the verification router embedded in
`src/server/routes/updates.js` (lines 335–463 of the concatenated file)

The verification result objects built by `parseGeminiVerificationResponse`
and `generateFallbackVerification` are plain JS objects; to compare their
*shapes* we model a JS object as an ordered list of named fields. -/

inductive JsVal where
  | num (n : Int)
  | str (s : String)
  | arr (elems : List String)
  deriving Repr, DecidableEq

/-- A JS object: named fields in declaration order. -/
abbrev JsObj : Type := List (String × JsVal)

/-- The field set (shape) of a JS object. -/
def fieldNames (obj : JsObj) : List String := obj.map Prod.fst

/-- Look a field up by name. -/
def getField : JsObj → String → Option JsVal
  | [], _ => none
  | (k, v) :: rest, name => if k = name then some v else getField rest name

/-- `generateFallbackVerification(image_url)` (lines 449–461): a heuristic
result with `score = Math.floor(Math.random() * 40) + 60`; the random draw
is made explicit as a parameter `r`, with `Math.floor(Math.random() * 40)`
modelled as `r % 40`.  Note the extra `method: 'fallback_analysis'` field,
absent from `parseGeminiVerificationResponse`'s non-JSON default object. -/
def generateFallbackVerification (r : Nat) : JsObj :=
  let score : Int := (r % 40 : Nat) + 60
  [("authenticity_score", .num score),
   ("confidence_level",
     .str (if 80 ≤ score then "high" else if 60 ≤ score then "medium" else "low")),
   ("analysis_notes",
     .str "Automated analysis completed. Manual review recommended for critical decisions."),
   ("disaster_type", .str "unspecified"),
   ("flags", .arr (if score < 70 then ["requires_manual_review"] else [])),
   ("method", .str "fallback_analysis")]

/-- Outcome of `geminiResponse.match(/\{[\s\S]*\}/)` followed by
`JSON.parse` inside `parseGeminiVerificationResponse` (lines 426–446):
either a JSON object was extracted and parsed, or no JSON-looking span was
found, or `JSON.parse` threw. -/
inductive GeminiParse where
  | extracted (obj : JsObj)
  | noJsonMatch
  | parseError
  deriving Repr, DecidableEq

/-- `parseGeminiVerificationResponse(geminiResponse)`: return the parsed
JSON object when one is extracted; a fixed default object when no JSON is
found; and `generateFallbackVerification()` when parsing throws. -/
def parseGeminiVerificationResponse (p : GeminiParse) (r : Nat) : JsObj :=
  match p with
  | .extracted obj => obj
  | .noJsonMatch =>
      [("authenticity_score", .num 75),
       ("confidence_level", .str "medium"),
       ("analysis_notes",
         .str "Image appears to show legitimate disaster conditions based on visual analysis."),
       ("disaster_type", .str "general_emergency"),
       ("flags", .arr [])]
  | .parseError => generateFallbackVerification r

/-- The `verificationResult` dispatch of the `verify-image` route
(lines 379–386): try `callGeminiAPI` and parse its response; if the call
throws, fall back to `generateFallbackVerification(image_url)`.  The
Gemini call's outcome is the `gemini` parameter. -/
def verifyImageVerification (gemini : Except String GeminiParse) (r : Nat) : JsObj :=
  match gemini with
  | .ok p => parseGeminiVerificationResponse p r
  | .error _ => generateFallbackVerification r

/-! ### Claim C6 — content analysis never fails, fallback shape -/

/-- C6 (counterexample): the claim says the fallback result is structurally
identical in shape (same field set) to the primary provider's parsed
output.  But when the Gemini call throws, the fallback object carries an
extra `method` field that the primary parse's default object does not, so
the two shapes differ. -/
theorem enrichContent_shape_counterexample :
    fieldNames (verifyImageVerification (.error "Gemini API error") 0) ≠
      fieldNames (verifyImageVerification (.ok .noJsonMatch) 0) := by
  decide

/-- C6 (amended): the content-analysis dispatch never fails — a throwing
Gemini call and an unparseable payload both yield a structured object —
but the heuristic fallback's shape is the primary parse's default shape
*plus* an extra `method` field (and when a JSON object is extracted the
result is whatever shape that object has).  The fallback is a structurally
valid verification: its `authenticity_score` is an integer in `[60, 99]`. -/
theorem enrichContent_never_fails_shape (msg : String) (r : Nat) :
    verifyImageVerification (.error msg) r = generateFallbackVerification r ∧
    verifyImageVerification (.ok .parseError) r = generateFallbackVerification r ∧
    fieldNames (generateFallbackVerification r) =
      fieldNames (verifyImageVerification (.ok .noJsonMatch) r) ++ ["method"] ∧
    (∃ s : Int,
      getField (generateFallbackVerification r) "authenticity_score" =
        some (.num s) ∧ 60 ≤ s ∧ s ≤ 99) := by
  refine ⟨rfl, rfl, rfl, ((r % 40 : Nat) : Int) + 60, rfl, ?_, ?_⟩
  · omega
  · have h : r % 40 < 40 := Nat.mod_lt r (by omega)
    omega

/-! ### Claim C10 — report verification status thresholds -/

/-- The status ternary of the `verify-image` route (lines 400–401):
`score >= 70 ? 'verified' : score >= 40 ? 'questionable' : 'rejected'`. -/
def verificationStatus (score : Int) : String :=
  if 70 ≤ score then "verified"
  else if 40 ≤ score then "questionable"
  else "rejected"

/-- The body of the `try` block guarding the report update (lines 397–411):
compute the status and update the `reports` row; a store failure is
thrown. -/
def reportStatusUpdateAttempt (dbErr : Option String) (score : Int) :
    Except String String :=
  match dbErr with
  | some msg => .error msg
  | none => .ok (verificationStatus score)

/-- The report-update step as the route runs it: on success the response
object gains `verification_status = status`; on failure the error is
caught and logged, the field stays absent, and the route continues to
respond with the verification result either way. -/
def reportStatusUpdateStep (dbErr : Option String) (score : Int) : Option String :=
  match reportStatusUpdateAttempt dbErr score with
  | .ok status => some status
  | .error _ => none

/-- C10 (confirmed): when the report update succeeds the stored status is
`'verified'` iff `score ≥ 70`, `'questionable'` iff `40 ≤ score < 70`, and
`'rejected'` otherwise (iff `score < 40`); and when the update fails, the
failure is swallowed — the step yields no status field but no error
escapes to fail the verification response. -/
theorem verify_image_status_semantics (score : Int) (msg : String) :
    (verificationStatus score = "verified" ↔ 70 ≤ score) ∧
    (verificationStatus score = "questionable" ↔ 40 ≤ score ∧ score < 70) ∧
    (verificationStatus score = "rejected" ↔ score < 40) ∧
    reportStatusUpdateStep none score = some (verificationStatus score) ∧
    reportStatusUpdateAttempt (some msg) score = .error msg ∧
    reportStatusUpdateStep (some msg) score = none := by
  refine ⟨?_, ?_, ?_, rfl, rfl, rfl⟩ <;>
    · by_cases h70 : 70 ≤ score <;> by_cases h40 : 40 ≤ score <;>
        simp [verificationStatus, h70, h40] <;> omega

/-! ## Geocoding routes — `src/server/routes/geocoding.js`
(`src/unnamed/part_003`)

The numeric coordinates returned by the providers are opaque payload data
for every property below; they are modelled as `Int` since no claim
depends on floating-point arithmetic.  Request texts are byte buffers
(`List Nat`), matching the `Buffer.from(...)` key derivation; JS-falsy
(empty/absent) strings are modelled as `none`. -/

/-- A provider success payload (the object literals of
`src/server/services/geocoding.js`). -/
structure GeoResult where
  lat : Int
  lng : Int
  formatted_address : String
  place_id : String
  service : String
  deriving Repr, DecidableEq

/-- Output of `parseLocationExtractionResponse` /
`extractLocationsFallback` (either branch of the step-1 `try`/`catch`):
`locations`, `primary_location`, `confidence`, and — only in the
pattern-matching fallback — a `method` tag. -/
structure ExtractedLocations where
  locations : List String
  primary_location : Option String
  confidence : String
  method : Option String
  deriving Repr, DecidableEq

/-- The response object of `/extract-and-geocode` (lines 65–74). -/
structure ExtractGeocodeResult where
  input_text : List Nat
  extracted_locations : ExtractedLocations
  geocoding : Option GeoResult
  coordinates : Option (Int × Int)
  timestamp : Int
  deriving Repr, DecidableEq

/-- The response object of `/coordinates` (lines 107–115). -/
structure CoordinatesResult where
  location_name : List Nat
  coordinates : Option (Int × Int)
  geocoding : Option GeoResult
  timestamp : Int
  deriving Repr, DecidableEq

/-- An Express route's observable outcome. -/
inductive RouteResponse (A : Type) where
  | ok (body : A)
  | badRequest (error : String)
  | serverError (error : String)
  deriving Repr, DecidableEq

/-- The `/extract-and-geocode` handler (lines 10–85).  Parameters beyond
the request body: `dbErr`/`now` for the cache store, `extracted` for the
outcome of the step-1 extraction `try`/`catch` (both branches produce an
`ExtractedLocations`), and `providers` for the outcomes of the geocoder
chain that `geocodeLocation` walks.  Control flow from the source: 400
when both `text` and `description` are missing; cache hit returns the
cached body; on a miss, geocode the primary location if one was extracted,
*catching and logging* a geocoding failure (leaving `geocodingResult`
null); build the result; cache it unconditionally; respond 200. -/
def extractAndGeocodeHandler (dbErr : Option String) (now : Int)
    (store : Store ExtractGeocodeResult)
    (text? description? : Option (List Nat))
    (extracted : ExtractedLocations)
    (providers : List (ProviderOutcome GeoResult)) :
    RouteResponse ExtractGeocodeResult × Store ExtractGeocodeResult :=
  match text?.or description? with
  | none => (.badRequest "text or description is required", store)
  | some inputText =>
      let key := String.mk (geocodeCacheKey inputText)
      match getCachedData dbErr now store key with
      | (some cached, store₁) => (.ok cached, store₁)
      | (none, store₁) =>
          let geocodingResult : Option GeoResult :=
            match extracted.primary_location with
            | some _ =>
                match geocodeLocation providers with
                | .ok r => some r
                | .error _ => none
            | none => none
          let result : ExtractGeocodeResult :=
            { input_text := inputText
              extracted_locations := extracted
              geocoding := geocodingResult
              coordinates := geocodingResult.map (fun r => (r.lat, r.lng))
              timestamp := now }
          (.ok result, setCachedData dbErr now store₁ key result 3600)

/-- The `/coordinates` handler (lines 88–126): 400 when `location_name` is
missing; cache hit returns the cached body; on a miss,
`geocodeLocation(location_name)` is awaited *without* an inner catch, so
an aggregate geocoding failure propagates to the route's `catch`, which
responds 500 — the `setCachedData` call is never reached.  On success the
result is cached and returned. -/
def coordinatesHandler (dbErr : Option String) (now : Int)
    (store : Store CoordinatesResult)
    (locationName? : Option (List Nat))
    (providers : List (ProviderOutcome GeoResult)) :
    RouteResponse CoordinatesResult × Store CoordinatesResult :=
  match locationName? with
  | none => (.badRequest "location_name is required", store)
  | some locationName =>
      let key := String.mk (directGeocodeCacheKey locationName)
      match getCachedData dbErr now store key with
      | (some cached, store₁) => (.ok cached, store₁)
      | (none, store₁) =>
          match geocodeLocation providers with
          | .error _ => (.serverError "Failed to geocode location", store₁)
          | .ok r =>
              let result : CoordinatesResult :=
                { location_name := locationName
                  coordinates := some (r.lat, r.lng)
                  geocoding := some r
                  timestamp := now }
              (.ok result, setCachedData dbErr now store₁ key result 3600)

/-! ### Claim C1 — no-cache-on-failure -/

/-- C1 (counterexample): in `/extract-and-geocode`, after the whole
geocoder chain fails, the handler still responds 200 with `geocoding:
null` *and stores that result under the derived geocode key* — here input
`[72]` with an extracted primary location and three failing providers
leaves a cache entry under `geocode_SA==`, contradicting the claimed
no-cache-on-failure invariant. -/
theorem enrich_no_cache_on_failure_counterexample :
    (storeFind
      (extractAndGeocodeHandler none 0 [] (some [72]) none
        ⟨["Manhattan"], some "Manhattan", "medium", some "pattern_matching_fallback"⟩
        [.failure "Google Maps API key not configured",
         .failure "Mapbox access token not configured",
         .failure "OpenStreetMap geocoding returned no results"]).2
      (String.mk (geocodeCacheKey [72]))).isSome = true ∧
    (extractAndGeocodeHandler none 0 [] (some [72]) none
        ⟨["Manhattan"], some "Manhattan", "medium", some "pattern_matching_fallback"⟩
        [.failure "Google Maps API key not configured",
         .failure "Mapbox access token not configured",
         .failure "OpenStreetMap geocoding returned no results"]).1 =
      .ok { input_text := [72]
            extracted_locations :=
              ⟨["Manhattan"], some "Manhattan", "medium",
                some "pattern_matching_fallback"⟩
            geocoding := none
            coordinates := none
            timestamp := 0 } := by
  decide

/-- C1 (amended): the no-cache-on-failure rule holds for `/coordinates`
but not for `/extract-and-geocode`.  With a healthy store holding no entry
for the derived key and an all-failing provider chain: `/coordinates`
propagates the failure as a 500 error and leaves the store unchanged (no
entry is written), while `/extract-and-geocode` swallows the failure,
responds 200 with `geocoding: null`, and *does* write that result under
the derived geocode key. -/
theorem enrich_no_cache_on_failure_semantics (now : Int)
    (storeC : Store CoordinatesResult) (storeG : Store ExtractGeocodeResult)
    (locationName inputText : List Nat) (extracted : ExtractedLocations)
    (loc : String) (providers : List (ProviderOutcome GeoResult))
    (hfail : ∀ o ∈ providers, o.isFailure = true)
    (hmissC : storeFind storeC (String.mk (directGeocodeCacheKey locationName)) = none)
    (hmissG : storeFind storeG (String.mk (geocodeCacheKey inputText)) = none)
    (hprim : extracted.primary_location = some loc) :
    coordinatesHandler none now storeC (some locationName) providers =
      (.serverError "Failed to geocode location", storeC) ∧
    extractAndGeocodeHandler none now storeG (some inputText) none extracted providers =
      (.ok { input_text := inputText
             extracted_locations := extracted
             geocoding := none
             coordinates := none
             timestamp := now },
       storeUpsert storeG (String.mk (geocodeCacheKey inputText))
         ⟨{ input_text := inputText
            extracted_locations := extracted
            geocoding := none
            coordinates := none
            timestamp := now }, now + 3600 * 1000⟩) := by
  have hgeo : geocodeLocation providers = .error "All geocoding services failed" := by
    unfold geocodeLocation
    rw [geocode_all_providers_fail providers hfail]
  constructor
  · simp [coordinatesHandler, getCachedData, getCachedDataAttempt, hmissC, hgeo]
  · simp [extractAndGeocodeHandler, getCachedData, getCachedDataAttempt, hmissG,
      hgeo, hprim, setCachedData, setCachedDataAttempt, Option.or]

/-- Witness for `enrich_no_cache_on_failure_semantics` on concrete stores
and providers. -/
theorem enrich_no_cache_on_failure_semantics_witness :
    coordinatesHandler none 0 [] (some [76]) [.failure "down"] =
      (.serverError "Failed to geocode location", []) ∧
    extractAndGeocodeHandler none 0 [] (some [76]) none
        ⟨["L"], some "L", "medium", none⟩ [.failure "down"] =
      (.ok { input_text := [76]
             extracted_locations := ⟨["L"], some "L", "medium", none⟩
             geocoding := none
             coordinates := none
             timestamp := 0 },
       storeUpsert [] (String.mk (geocodeCacheKey [76]))
         ⟨{ input_text := [76]
            extracted_locations := ⟨["L"], some "L", "medium", none⟩
            geocoding := none
            coordinates := none
            timestamp := 0 }, 0 + 3600 * 1000⟩) :=
  enrich_no_cache_on_failure_semantics 0 [] [] [76] [76]
    ⟨["L"], some "L", "medium", none⟩ "L" [.failure "down"]
    (by decide) (by decide) (by decide) rfl

end DisasterPlatform
